import Mathlib

/-!
Shallow embedding of the Cursor-RAG pipeline (server.js) and of the
TaskAgent routing layer (agent.js).

External collaborators — the Gemini language model, the Google embedding
service, the Pinecone vector index and the file-based query counter — are
modelled as function parameters of type `... → Except String α`:
`Except.error m` models a thrown JavaScript exception carrying message `m`,
and `Except.ok v` models a normally resolved promise. JavaScript arguments
that may fail a typeof check are modelled with explicit sum types.
Relevance scores (JavaScript numbers produced by the exact formula
1 - index * 0.1) are modelled as rationals.
-/

/-- Model of a JavaScript argument that is either a string or some
non-string value (null, undefined, number, object and so on), as tested by
the typeof checks in server.js. -/
inductive QueryInput
| str (s : String)
| nonString
deriving DecidableEq, Repr

/-- Result object built by searchKnowledgeBase in server.js, lines 150-154:
fields chunkId, content, relevanceScore. -/
structure SearchResult where
  chunkId : String
  content : String
  relevanceScore : ℚ
deriving DecidableEq, Repr

/-- Structured response object returned by searchKnowledgeBase in
server.js, lines 157-173, on both the success and the catch path. -/
structure SearchResponse where
  success : Bool
  query : QueryInput
  results : List SearchResult
  resultCount : Nat
  message : String
  errorDetails : Option String
deriving DecidableEq, Repr

/-- Model of one Pinecone match as consumed by queryDocument, lines
126-128 of server.js. The field is `some t` when metadata.text exists and
is a string with value `t`, and `none` when it is missing or not a
string. -/
structure PineconeMatch where
  metadataText : Option String
deriving DecidableEq, Repr

/-- Embedding of queryDocument (server.js, lines 101-132). The parameter
`search` bundles the two external calls it performs after validation:
embedding the question and querying the Pinecone index. The truthiness
filter on match.metadata?.text drops missing, non-string and empty text
values. -/
def queryDocument (search : String → Except String (List PineconeMatch))
    (question : QueryInput) : Except String (List String) :=
  match question with
  | QueryInput.nonString => Except.error "Invalid question provided"
  | QueryInput.str s =>
    if s = "" then Except.error "Invalid question provided"
    else
      match search s with
      | Except.error e => Except.error e
      | Except.ok ms =>
        Except.ok (ms.filterMap fun m =>
          match m.metadataText with
          | some t => if t = "" then none else some t
          | none => none)

/-- Model of JavaScript String.prototype.trim: drop leading and trailing
whitespace. Defined structurally over the character list so that concrete
instances reduce inside the kernel. -/
def jsTrim (s : String) : String :=
  String.mk (((s.data.dropWhile Char.isWhitespace).reverse.dropWhile
    Char.isWhitespace).reverse)

/-- Embedding of the indexed map in searchKnowledgeBase, lines 150-154 of
server.js: rawSearchResults.map with the element index, producing
chunkId = "chunk_" ++ index and relevanceScore = 1 - index * 0.1. -/
def formatFrom : Nat → List String → List SearchResult
  | _, [] => []
  | i, c :: cs =>
    { chunkId := "chunk_" ++ toString i, content := c,
      relevanceScore := 1 - (i : ℚ) / 10 } :: formatFrom (i + 1) cs

/-- Formatted results of searchKnowledgeBase: the indexed map starting at
index 0. -/
def formatResults (raw : List String) : List SearchResult := formatFrom 0 raw

/-- Response object built in the catch branch of searchKnowledgeBase,
lines 166-173 of server.js. -/
def searchFailure (query : QueryInput) (m : String) : SearchResponse :=
  { success := false, query := query, results := [], resultCount := 0,
    message := "Failed to perform knowledge base search: " ++ m,
    errorDetails := some m }

/-- Embedding of searchKnowledgeBase (server.js, lines 137-175). The
parameter `qd` is the call to queryDocument made after validation; the
whole body sits in a try/catch, so a validation throw or a `qd` throw
lands in the catch branch and becomes a success := false response. -/
def searchKnowledgeBase (qd : String → Except String (List String))
    (query : QueryInput) : SearchResponse :=
  match query with
  | QueryInput.nonString => searchFailure query "Query cannot be empty or invalid."
  | QueryInput.str s =>
    if jsTrim s = "" then searchFailure query "Query cannot be empty or invalid."
    else
      match qd s with
      | Except.error e => searchFailure query e
      | Except.ok raw =>
        { success := true, query := query, results := formatResults raw,
          resultCount := (formatResults raw).length,
          message :=
            if 0 < (formatResults raw).length then "Search completed successfully."
            else "No relevant results found.",
          errorDetails := none }

/-- Model of the JavaScript `context` argument of generateAnswer, which
the code probes with Array.isArray. -/
inductive ContextInput
| arr (l : List String)
| nonArray
deriving DecidableEq, Repr

/-- Embedding of the indexed map in generateAnswer, line 194 of server.js:
context.map of (c, i) to "[" ++ (i + 1) ++ "] " ++ c. -/
def contextLines : Nat → List String → List String
  | _, [] => []
  | i, c :: cs => ("[" ++ toString (i + 1) ++ "] " ++ c) :: contextLines (i + 1) cs

/-- Prompt built by generateAnswer (server.js, lines 188-196). -/
def buildPrompt (question : String) (context : List String) : String :=
  "You are a helpful assistant. Answer the question using ONLY the provided context.\n" ++
  "If the answer is not found in the context, state that clearly and do not make up information.\n\n" ++
  "Question: " ++ question ++ "\n\nContext:\n" ++
  String.intercalate "\n\n" (contextLines 0 context) ++
  "\n\nAnswer with citations (e.g., [1], [2]):"

/-- Embedding of generateAnswer (server.js, lines 177-205). The parameter
`model` is the external language-model call; on a valid non-empty context
the function forwards the built prompt to it and returns its text. -/
def generateAnswer (model : String → Except String String) (question : String)
    (context : ContextInput) : Except String String :=
  match context with
  | ContextInput.nonArray => Except.error "No context available for answer generation"
  | ContextInput.arr [] => Except.error "No context available for answer generation"
  | ContextInput.arr l => model (buildPrompt question l)

/-- Record built by storeInPinecone, lines 84-88 of server.js. The
Date.now and Math.random parts of the id and the timestamp are modelled by
the `nonce` and `now` parameters below. -/
structure PineconeRecord where
  id : String
  values : List ℚ
  metadataText : String
  metadataTimestamp : String
deriving DecidableEq, Repr

/-- Indexed record construction of storeInPinecone, lines 84-88:
chunks.map of (chunk, i) pairing it with vectors[i]. The two lists are
consumed in lockstep; storeInPinecone only reaches this after checking the
lengths are equal. -/
def buildFrom (nonce : Nat → String) (now : String) :
    Nat → List String → List (List ℚ) → List PineconeRecord
  | _, [], _ => []
  | _, _ :: _, [] => []
  | i, c :: cs, v :: vs =>
    { id := "chunk_" ++ toString i ++ "_" ++ nonce i, values := v,
      metadataText := c, metadataTimestamp := now } :: buildFrom nonce now (i + 1) cs vs

/-- Records built by storeInPinecone for the given chunks and vectors. -/
def buildRecords (nonce : Nat → String) (now : String) (chunks : List String)
    (vectors : List (List ℚ)) : List PineconeRecord :=
  buildFrom nonce now 0 chunks vectors

/-- Batched upsert loop of storeInPinecone, lines 91-95 of server.js:
slices of 100 records are sent sequentially, and a failing upsert
propagates immediately. -/
def upsertBatches (upsert : List PineconeRecord → Except String Unit) :
    List PineconeRecord → Except String Unit
  | [] => Except.ok ()
  | r :: rs =>
    match upsert ((r :: rs).take 100) with
    | Except.error e => Except.error e
    | Except.ok _ => upsertBatches upsert ((r :: rs).drop 100)
termination_by l => l.length
decreasing_by simp [List.length_drop]; omega

/-- Embedding of storeInPinecone (server.js, lines 74-99): length check,
record construction, batched upsert, then the record count is returned. -/
def storeInPinecone (upsert : List PineconeRecord → Except String Unit)
    (nonce : Nat → String) (now : String) (chunks : List String)
    (vectors : List (List ℚ)) : Except String Nat :=
  if chunks.length ≠ vectors.length then
    Except.error "Mismatch between chunks and vectors length"
  else
    match upsertBatches upsert (buildRecords nonce now chunks vectors) with
    | Except.error e => Except.error e
    | Except.ok _ => Except.ok (buildRecords nonce now chunks vectors).length

/-- Known intent labels of TaskAgent.analyzeIntent, agent.js line 70. -/
def knownIntents : List String :=
  ["answer_question", "search_knowledge_base", "get_query_count"]

/-- Classification prompt of TaskAgent.analyzeIntent, agent.js lines
51-60 (a template literal, including its indentation). -/
def buildIntentPrompt (query : String) : String :=
  "Classify the following user query into one of these categories:\n" ++
  "            - \"answer_question\": The user is asking a question that requires a direct answer from the knowledge base.\n" ++
  "            - \"search_knowledge_base\": The user wants to search the knowledge base for relevant documents or chunks.\n" ++
  "            - \"get_query_count\": The user wants to know the current total number of queries.\n" ++
  "            - \"unknown\": The query does not fit into any of the above categories.\n\n" ++
  "            Respond with only the category name.\n\n" ++
  "            Query: \"" ++ query ++ "\"\n" ++
  "            Category:"

/-- Return object of TaskAgent.analyzeIntent: an intent string, plus the
error message field that is attached only on the catch path. -/
structure IntentResult where
  intent : String
  error : Option String
deriving DecidableEq, Repr

/-- Embedding of TaskAgent.analyzeIntent (agent.js, lines 40-81). The
parameter `model` is the genAI.models.generateContent call; its text is
trimmed and checked against the known intents with includes. -/
def analyzeIntent (model : String → Except String String) (query : String) :
    IntentResult :=
  match model (buildIntentPrompt query) with
  | Except.error e => { intent := "unknown", error := some e }
  | Except.ok text =>
    let responseText := jsTrim text
    { intent := if responseText ∈ knownIntents then responseText else "unknown",
      error := none }

/-- Tagged output of TaskAgent.executeTools (agent.js, lines 110-132):
each return object carries a type field, modelled here as the constructor
tag. -/
inductive ToolOutput
| answer (text : String) (chunksRetrieved : Nat) (searchResults : Option (List SearchResult))
| search (response : SearchResponse)
| queryCount (count : Int)
| error (message : String)
deriving DecidableEq, Repr

/-- The JavaScript type field of a ToolOutput. -/
def tagOf : ToolOutput → String
  | ToolOutput.answer _ _ _ => "answer"
  | ToolOutput.search _ => "search"
  | ToolOutput.queryCount _ => "query_count"
  | ToolOutput.error _ => "error"

/-- Fixed fallback text of the answer_question branch with no usable
retrieval results, agent.js line 112. -/
def noRelevantInfo : String :=
  "I couldn\x27t find any relevant information in the document store to answer that question."

/-- Body of the try block of TaskAgent.executeTools (agent.js, lines
100-129): the switch over the intent string, with every collaborator call
able to throw (Except.error). -/
def executeToolsCore (searchKB : String → Except String SearchResponse)
    (genAnswer : String → List String → Except String String)
    (queryCounter : Unit → Except String Int)
    (intent query : String) : Except String ToolOutput :=
  match intent with
  | "answer_question" =>
    match searchKB query with
    | Except.error e => Except.error e
    | Except.ok sr =>
      if sr.success = true ∧ 0 < sr.results.length then
        match genAnswer query (sr.results.map SearchResult.content) with
        | Except.error e => Except.error e
        | Except.ok a =>
          Except.ok (ToolOutput.answer a (sr.results.map SearchResult.content).length
            (some sr.results))
      else Except.ok (ToolOutput.answer noRelevantInfo 0 none)
  | "search_knowledge_base" =>
    match searchKB query with
    | Except.error e => Except.error e
    | Except.ok sr => Except.ok (ToolOutput.search sr)
  | "get_query_count" =>
    match queryCounter () with
    | Except.error e => Except.error e
    | Except.ok c => Except.ok (ToolOutput.queryCount c)
  | _ => Except.ok (ToolOutput.error "I don\x27t understand that request.")

/-- Embedding of TaskAgent.executeTools (agent.js, lines 91-134): the
switch wrapped in the try/catch that converts any thrown collaborator
error into the error output variant. -/
def executeTools (searchKB : String → Except String SearchResponse)
    (genAnswer : String → List String → Except String String)
    (queryCounter : Unit → Except String Int)
    (intent query : String) : ToolOutput :=
  match executeToolsCore searchKB genAnswer queryCounter intent query with
  | Except.ok out => out
  | Except.error m =>
    ToolOutput.error ("An error occurred while processing your request: " ++ m)

/-- Loose model of one element of toolOutput.results as probed by
TaskAgent.generateResponse: content is `some c` when the field exists and
is the string `c`, and `none` when it is missing. -/
structure LooseResult where
  content : Option String
deriving DecidableEq, Repr

/-- Loose model of a search-typed toolOutput as probed by
TaskAgent.generateResponse: the results field may be missing entirely. -/
structure LooseSearch where
  success : Bool
  resultCount : Int
  results : Option (List LooseResult)
  message : String
deriving DecidableEq, Repr

/-- Loose model of the toolOutput argument of TaskAgent.generateResponse:
the switch is over the type field, with a default branch for anything
else. -/
inductive LooseToolOutput
| answer (text : String)
| search (s : LooseSearch)
| queryCount (count : Int)
| error (message : String)
| other
deriving DecidableEq, Repr

/-- JavaScript s.substring(0, n): the first n characters of s. -/
def jsSubstring0 (n : Nat) (s : String) : String := String.mk (s.data.take n)

/-- Embedding of TaskAgent.generateResponse (agent.js, lines 143-184).
The guard on results, results[0] and results[0].content follows JavaScript
truthiness, so a missing field or an empty content string falls back to
the count-only message. -/
def generateResponse (intent : String) (toolOutput : LooseToolOutput) : String :=
  match toolOutput with
  | LooseToolOutput.answer text => text
  | LooseToolOutput.search s =>
    if s.success = true ∧ 0 < s.resultCount then
      match s.results with
      | some (r :: _) =>
        match r.content with
        | some c =>
          if c = "" then
            "Found " ++ toString s.resultCount ++ " relevant results in the knowledge base."
          else
            "Found " ++ toString s.resultCount ++
            " relevant results. Here\x27s a snippet from the top result: \"" ++
            (jsSubstring0 150 c ++ "...") ++ "\""
        | none =>
          "Found " ++ toString s.resultCount ++ " relevant results in the knowledge base."
      | _ =>
        "Found " ++ toString s.resultCount ++ " relevant results in the knowledge base."
    else if s.success = true ∧ s.resultCount = 0 then
      "No relevant documents found for your search query in the knowledge base."
    else
      "I encountered an issue while searching the knowledge base: " ++ s.message
  | LooseToolOutput.queryCount c =>
    "The total number of queries processed so far is: " ++ toString c ++ "."
  | LooseToolOutput.error m => m
  | LooseToolOutput.other =>
    "I\x27m sorry, I couldn\x27t process that request fully. Please try again."

/-! ## Helper lemmas -/

theorem formatFrom_length (raw : List String) : ∀ k, (formatFrom k raw).length = raw.length := by
  induction raw with
  | nil => intro k; rfl
  | cons c cs ih => intro k; simp [formatFrom, ih]

theorem formatFrom_score (raw : List String) :
    ∀ k i (h : i < (formatFrom k raw).length),
      ((formatFrom k raw).get ⟨i, h⟩).relevanceScore = 1 - ((k + i : ℕ) : ℚ) / 10 := by
  induction raw with
  | nil => intro k i h; simp [formatFrom] at h
  | cons c cs ih =>
    intro k i h
    cases i with
    | zero => simp [formatFrom]
    | succ j =>
      have h2 : j < (formatFrom (k + 1) cs).length := by
        simpa [formatFrom] using h
      have := ih (k + 1) j h2
      simp only [formatFrom, List.get_cons_succ]
      rw [this]
      congr 2
      push_cast
      ring

theorem contextLines_length (l : List String) : ∀ k, (contextLines k l).length = l.length := by
  induction l with
  | nil => intro k; rfl
  | cons c cs ih => intro k; simp [contextLines, ih]

theorem contextLines_get (l : List String) :
    ∀ k i (h : i < l.length) (h2 : i < (contextLines k l).length),
      (contextLines k l).get ⟨i, h2⟩ =
        "[" ++ toString (k + i + 1) ++ "] " ++ l.get ⟨i, h⟩ := by
  induction l with
  | nil => intro k i h h2; simp at h
  | cons c cs ih =>
    intro k i h h2
    cases i with
    | zero => simp [contextLines]
    | succ j =>
      have hj : j < cs.length := by simpa using h
      have hj2 : j < (contextLines (k + 1) cs).length := by
        simpa [contextLines] using h2
      have := ih (k + 1) j hj hj2
      simp only [contextLines, List.get_cons_succ]
      rw [show k + (j + 1) + 1 = (k + 1) + j + 1 by omega]
      exact this

theorem buildFrom_length (nonce : Nat → String) (now : String) (chunks : List String) :
    ∀ k (vectors : List (List ℚ)),
      (buildFrom nonce now k chunks vectors).length = min chunks.length vectors.length := by
  induction chunks with
  | nil => intro k vectors; simp [buildFrom]
  | cons c cs ih =>
    intro k vectors
    cases vectors with
    | nil => simp [buildFrom]
    | cons v vs =>
      simp [buildFrom, ih]
      omega

theorem upsertBatches_ok_of_le (u : List PineconeRecord → Except String Unit)
    (h : ∀ b, u b = Except.ok ()) :
    ∀ n (rs : List PineconeRecord), rs.length ≤ n → upsertBatches u rs = Except.ok () := by
  intro n
  induction n with
  | zero =>
    intro rs hr
    cases rs with
    | nil => simp [upsertBatches]
    | cons r rs => simp at hr
  | succ n ih =>
    intro rs hr
    cases rs with
    | nil => simp [upsertBatches]
    | cons r rs =>
      rw [upsertBatches, h]
      apply ih
      simp
      simp at hr
      omega

theorem upsertBatches_ok (u : List PineconeRecord → Except String Unit)
    (h : ∀ b, u b = Except.ok ()) (rs : List PineconeRecord) :
    upsertBatches u rs = Except.ok () :=
  upsertBatches_ok_of_le u h rs.length rs le_rfl

/-! ## Claim theorems -/

/-- C1 counterexample: the claim states that any raw model response not
exactly equal to one of the three known labels yields intent unknown, but
analyzeIntent trims the response before comparing, so the response
"answer_question " (with a trailing space), which is not exactly equal to
any known label, is classified as answer_question rather than unknown. -/
theorem analyzeIntent_trim_counterexample :
    (analyzeIntent (fun _ => Except.ok "answer_question ") "any query").intent =
      "answer_question" ∧
    "answer_question " ∉ knownIntents ∧
    (analyzeIntent (fun _ => Except.ok "answer_question ") "any query").intent ≠
      "unknown" := by
  refine ⟨by decide, by decide, by decide⟩

/-- C1 (amended): for every query and every model behavior, analyzeIntent
returns an intent drawn from the four known intents; any response whose
trimmed text is not exactly one of the three known labels yields unknown,
any thrown exception yields unknown with the exception message attached,
and no exception is ever propagated (analyzeIntent is a total
function). -/
theorem analyzeIntent_unknown_safe (model : String → Except String String)
    (query : String) :
    (analyzeIntent model query).intent ∈
      ["answer_question", "search_knowledge_base", "get_query_count", "unknown"] ∧
    (∀ t, model (buildIntentPrompt query) = Except.ok t →
      jsTrim t ∉ knownIntents →
      analyzeIntent model query = { intent := "unknown", error := none }) ∧
    (∀ m, model (buildIntentPrompt query) = Except.error m →
      analyzeIntent model query = { intent := "unknown", error := some m }) := by
  refine ⟨?_, ?_, ?_⟩
  · unfold analyzeIntent
    cases h : model (buildIntentPrompt query) with
    | error e => simp
    | ok t =>
      show (if jsTrim t ∈ knownIntents then jsTrim t else "unknown") ∈ _
      by_cases hc : jsTrim t ∈ knownIntents
      · rw [if_pos hc]
        simp only [knownIntents, List.mem_cons, List.not_mem_nil, or_false] at hc
        rcases hc with h1 | h1 | h1 <;> rw [h1] <;> decide
      · rw [if_neg hc]
        decide
  · intro t ht hc
    simp [analyzeIntent, ht, hc]
  · intro m hm
    simp [analyzeIntent, hm]

/-- C1 witness: the amended theorem applied to a hallucinated label and to
a throwing model call. -/
theorem analyzeIntent_unknown_safe_witness :
    (analyzeIntent (fun _ => Except.ok "hallucinated label") "q").intent ∈
      ["answer_question", "search_knowledge_base", "get_query_count", "unknown"] ∧
    analyzeIntent (fun _ => Except.ok "hallucinated label") "q" =
      { intent := "unknown", error := none } ∧
    analyzeIntent (fun _ => Except.error "model down") "q" =
      { intent := "unknown", error := some "model down" } :=
  ⟨(analyzeIntent_unknown_safe (fun _ => Except.ok "hallucinated label") "q").1,
   (analyzeIntent_unknown_safe (fun _ => Except.ok "hallucinated label") "q").2.1
     "hallucinated label" rfl (by decide),
   (analyzeIntent_unknown_safe (fun _ => Except.error "model down") "q").2.2
     "model down" rfl⟩

/-- C2: for every intent value (known or not), every query and every
behavior of the three collaborators, executeTools returns an output
tagged with one of answer, search, query_count, error, and whenever the
dispatch body (executeToolsCore) raises an exception, executeTools
converts it into the error variant with the wrapped message instead of
propagating it (executeTools is a total function and never throws). -/
theorem executeTools_error_boundary (searchKB : String → Except String SearchResponse)
    (genAnswer : String → List String → Except String String)
    (queryCounter : Unit → Except String Int) (intent query : String) :
    tagOf (executeTools searchKB genAnswer queryCounter intent query) ∈
      ["answer", "search", "query_count", "error"] ∧
    ∀ m, executeToolsCore searchKB genAnswer queryCounter intent query = Except.error m →
      executeTools searchKB genAnswer queryCounter intent query =
        ToolOutput.error ("An error occurred while processing your request: " ++ m) := by
  constructor
  · cases h : executeTools searchKB genAnswer queryCounter intent query <;> simp [tagOf]
  · intro m hm
    unfold executeTools
    rw [hm]

/-- C2 witness: the theorem applied to a dispatch whose knowledge-base
collaborator throws. -/
theorem executeTools_error_boundary_witness :
    tagOf (executeTools (fun _ => Except.error "pinecone down")
      (fun _ _ => Except.error "x") (fun _ => Except.error "y")
      "answer_question" "q") ∈ ["answer", "search", "query_count", "error"] ∧
    executeTools (fun _ => Except.error "pinecone down")
      (fun _ _ => Except.error "x") (fun _ => Except.error "y")
      "answer_question" "q" =
      ToolOutput.error ("An error occurred while processing your request: " ++ "pinecone down") :=
  ⟨(executeTools_error_boundary (fun _ => Except.error "pinecone down")
      (fun _ _ => Except.error "x") (fun _ => Except.error "y") "answer_question" "q").1,
   (executeTools_error_boundary (fun _ => Except.error "pinecone down")
      (fun _ _ => Except.error "x") (fun _ => Except.error "y") "answer_question" "q").2
     "pinecone down" rfl⟩

/-- C3: on intent answer_question, when retrieval resolves with zero
results the generator collaborator is never consulted (the output is the
same fixed answer for every generator) and the output is the answer
variant with chunksRetrieved 0 and the fixed no-relevant-information
text; when retrieval resolves successfully with results, the generator is
called with exactly the retrieved result contents as context and the
answer variant carries chunksRetrieved equal to the number of results. -/
theorem executeTools_answer_question (searchKB : String → Except String SearchResponse)
    (genAnswer : String → List String → Except String String)
    (queryCounter : Unit → Except String Int) (q : String) (sr : SearchResponse)
    (hs : searchKB q = Except.ok sr) :
    (sr.results = [] →
      executeTools searchKB genAnswer queryCounter "answer_question" q =
        ToolOutput.answer noRelevantInfo 0 none) ∧
    (∀ a, sr.success = true → 0 < sr.results.length →
      genAnswer q (sr.results.map SearchResult.content) = Except.ok a →
      executeTools searchKB genAnswer queryCounter "answer_question" q =
        ToolOutput.answer a sr.results.length (some sr.results)) := by
  constructor
  · intro he
    simp [executeTools, executeToolsCore, hs, he]
  · intro a hsucc hlen hg
    simp [executeTools, executeToolsCore, hs, hsucc, hlen, hg]

/-- C3 witness: the theorem applied to a retrieval resolving with one
result and to a generator answering from it. -/
theorem executeTools_answer_question_witness :
    executeTools
      (fun _ => Except.ok
        { success := true, query := QueryInput.str "q",
          results := [{ chunkId := "chunk_0", content := "ctx", relevanceScore := 1 }],
          resultCount := 1, message := "Search completed successfully.",
          errorDetails := none })
      (fun _ _ => Except.ok "generated answer") (fun _ => Except.error "off")
      "answer_question" "q" =
      ToolOutput.answer "generated answer" 1
        (some [{ chunkId := "chunk_0", content := "ctx", relevanceScore := 1 }]) :=
  (executeTools_answer_question
      (fun _ => Except.ok
        { success := true, query := QueryInput.str "q",
          results := [{ chunkId := "chunk_0", content := "ctx", relevanceScore := 1 }],
          resultCount := 1, message := "Search completed successfully.",
          errorDetails := none })
      (fun _ _ => Except.ok "generated answer") (fun _ => Except.error "off") "q" _
      rfl).2 "generated answer" rfl (by decide) rfl

/-- C10: on intent answer_question, a retrieval that resolves with
success false produces the answer variant with the fixed
no-relevant-information text and chunksRetrieved 0 — not the error
variant — and that output is identical to the one produced by a retrieval
that succeeds with zero results, so the two situations are
indistinguishable at the dispatcher output. -/
theorem executeTools_retrieval_failure_indistinguishable
    (genAnswer : String → List String → Except String String)
    (queryCounter : Unit → Except String Int) (q : String)
    (skbFail skbEmpty : String → Except String SearchResponse)
    (srF srE : SearchResponse)
    (hF : skbFail q = Except.ok srF) (hFs : srF.success = false)
    (hE : skbEmpty q = Except.ok srE) (hEs : srE.success = true)
    (hEr : srE.results = []) :
    executeTools skbFail genAnswer queryCounter "answer_question" q =
      ToolOutput.answer noRelevantInfo 0 none ∧
    executeTools skbEmpty genAnswer queryCounter "answer_question" q =
      executeTools skbFail genAnswer queryCounter "answer_question" q := by
  have h1 : executeTools skbFail genAnswer queryCounter "answer_question" q =
      ToolOutput.answer noRelevantInfo 0 none := by
    simp [executeTools, executeToolsCore, hF, hFs]
  have h2 : executeTools skbEmpty genAnswer queryCounter "answer_question" q =
      ToolOutput.answer noRelevantInfo 0 none := by
    simp [executeTools, executeToolsCore, hE, hEr]
  exact ⟨h1, h2.trans h1.symm⟩

/-- C10 witness: the theorem applied to a failed retrieval (the catch
shape built by searchKnowledgeBase) and to an empty successful one. -/
theorem executeTools_retrieval_failure_indistinguishable_witness :
    executeTools (fun _ => Except.ok (searchFailure (QueryInput.str "q") "pinecone down"))
      (fun _ _ => Except.ok "a") (fun _ => Except.ok 1) "answer_question" "q" =
      ToolOutput.answer noRelevantInfo 0 none ∧
    executeTools (fun _ => Except.ok
        { success := true, query := QueryInput.str "q", results := [],
          resultCount := 0, message := "No relevant results found.",
          errorDetails := none })
      (fun _ _ => Except.ok "a") (fun _ => Except.ok 1) "answer_question" "q" =
      executeTools (fun _ => Except.ok (searchFailure (QueryInput.str "q") "pinecone down"))
        (fun _ _ => Except.ok "a") (fun _ => Except.ok 1) "answer_question" "q" :=
  executeTools_retrieval_failure_indistinguishable (fun _ _ => Except.ok "a")
    (fun _ => Except.ok 1) "q"
    (fun _ => Except.ok (searchFailure (QueryInput.str "q") "pinecone down"))
    (fun _ => Except.ok
      { success := true, query := QueryInput.str "q", results := [],
        resultCount := 0, message := "No relevant results found.",
        errorDetails := none })
    _ _ rfl rfl rfl rfl rfl

/-- C4: generateAnswer rejects an empty context list and a non-array
context with an error, for every model collaborator (so no language-model
call can be involved in producing that error); on a non-empty context it
calls the model with the built prompt, whose context section enumerates
the passages with the numeric labels [1] through [n] in order. -/
theorem generateAnswer_requires_context (model : String → Except String String)
    (question : String) :
    generateAnswer model question ContextInput.nonArray =
      Except.error "No context available for answer generation" ∧
    generateAnswer model question (ContextInput.arr []) =
      Except.error "No context available for answer generation" ∧
    ∀ l : List String, l ≠ [] →
      generateAnswer model question (ContextInput.arr l) = model (buildPrompt question l) ∧
      (contextLines 0 l).length = l.length ∧
      ∀ i (h : i < l.length) (h2 : i < (contextLines 0 l).length),
        (contextLines 0 l).get ⟨i, h2⟩ =
          "[" ++ toString (i + 1) ++ "] " ++ l.get ⟨i, h⟩ := by
  refine ⟨rfl, rfl, ?_⟩
  intro l hl
  refine ⟨?_, contextLines_length l 0, ?_⟩
  · cases l with
    | nil => exact absurd rfl hl
    | cons c cs => rfl
  · intro i h h2
    have := contextLines_get l 0 i h h2
    simpa using this

/-- C4 witness: the theorem applied to a two-passage context and to the
empty and non-array contexts. -/
theorem generateAnswer_requires_context_witness :
    generateAnswer (fun p => Except.ok p) "why" ContextInput.nonArray =
      Except.error "No context available for answer generation" ∧
    generateAnswer (fun p => Except.ok p) "why" (ContextInput.arr []) =
      Except.error "No context available for answer generation" ∧
    generateAnswer (fun p => Except.ok p) "why" (ContextInput.arr ["p1", "p2"]) =
      Except.ok (buildPrompt "why" ["p1", "p2"]) ∧
    (contextLines 0 ["p1", "p2"]).get ⟨0, by decide⟩ = "[1] p1" ∧
    (contextLines 0 ["p1", "p2"]).get ⟨1, by decide⟩ = "[2] p2" :=
  ⟨(generateAnswer_requires_context (fun p => Except.ok p) "why").1,
   (generateAnswer_requires_context (fun p => Except.ok p) "why").2.1,
   ((generateAnswer_requires_context (fun p => Except.ok p) "why").2.2
      ["p1", "p2"] (by decide)).1,
   by
    have := (((generateAnswer_requires_context (fun p => Except.ok p) "why").2.2
      ["p1", "p2"] (by decide)).2.2) 0 (by decide) (by decide)
    simpa using this,
   by
    have := (((generateAnswer_requires_context (fun p => Except.ok p) "why").2.2
      ["p1", "p2"] (by decide)).2.2) 1 (by decide) (by decide)
    simpa using this⟩

/-- C5: every result list produced by searchKnowledgeBase carries the
score 1 - i * 0.1 at position i, and the score at each position is
strictly greater than the score at the next position, so the results are
sorted by non-increasing (indeed strictly decreasing) relevanceScore. -/
theorem searchKnowledgeBase_sorted (qd : String → Except String (List String))
    (q : QueryInput) (i : Nat)
    (h : i < (searchKnowledgeBase qd q).results.length) :
    ((searchKnowledgeBase qd q).results.get ⟨i, h⟩).relevanceScore = 1 - (i : ℚ) / 10 ∧
    ∀ (h2 : i + 1 < (searchKnowledgeBase qd q).results.length),
      ((searchKnowledgeBase qd q).results.get ⟨i + 1, h2⟩).relevanceScore <
        ((searchKnowledgeBase qd q).results.get ⟨i, h⟩).relevanceScore := by
  have hres : (searchKnowledgeBase qd q).results = [] ∨
      ∃ raw, (searchKnowledgeBase qd q).results = formatFrom 0 raw := by
    unfold searchKnowledgeBase
    cases q with
    | nonString => exact Or.inl rfl
    | str s =>
      by_cases ht : jsTrim s = ""
      · simp [ht, searchFailure]
      · cases hq : qd s with
        | error e => simp [ht, hq, searchFailure]
        | ok raw => exact Or.inr ⟨raw, by simp [ht, hq, formatResults]⟩
  rcases hres with he | ⟨raw, hr⟩
  · exact absurd h (by simp [he])
  · revert h
    rw [hr]
    intro h
    constructor
    · have := formatFrom_score raw 0 i h
      simpa using this
    · intro h2
      have hi := formatFrom_score raw 0 i h
      have hi1 := formatFrom_score raw 0 (i + 1) h2
      rw [hi, hi1]
      push_cast
      linarith

/-- C5 witness: the theorem applied at position 0 of a two-result
search, giving score 1 at position 0 and a strictly smaller score at
position 1. -/
theorem searchKnowledgeBase_sorted_witness :
    ((searchKnowledgeBase (fun _ => Except.ok ["a", "b"]) (QueryInput.str "x")).results.get
        ⟨0, by decide⟩).relevanceScore = 1 - (0 : ℚ) / 10 ∧
    ((searchKnowledgeBase (fun _ => Except.ok ["a", "b"]) (QueryInput.str "x")).results.get
        ⟨1, by decide⟩).relevanceScore <
      ((searchKnowledgeBase (fun _ => Except.ok ["a", "b"]) (QueryInput.str "x")).results.get
        ⟨0, by decide⟩).relevanceScore :=
  ⟨(searchKnowledgeBase_sorted (fun _ => Except.ok ["a", "b"]) (QueryInput.str "x") 0
      (by decide)).1,
   (searchKnowledgeBase_sorted (fun _ => Except.ok ["a", "b"]) (QueryInput.str "x") 0
      (by decide)).2 (by decide)⟩

/-- C6: when the chunk count differs from the vector count,
storeInPinecone fails with the mismatch error for every upsert
collaborator (so no upsert is attempted); when the counts agree at n,
exactly n records are built — one per chunk — and, provided every upsert
batch succeeds, the returned inserted count equals n. -/
theorem storeInPinecone_spec (nonce : Nat → String) (now : String)
    (chunks : List String) (vectors : List (List ℚ)) :
    (chunks.length ≠ vectors.length →
      ∀ upsert, storeInPinecone upsert nonce now chunks vectors =
        Except.error "Mismatch between chunks and vectors length") ∧
    (chunks.length = vectors.length →
      (buildRecords nonce now chunks vectors).length = chunks.length ∧
      ∀ upsert, (∀ b, upsert b = Except.ok ()) →
        storeInPinecone upsert nonce now chunks vectors = Except.ok chunks.length) := by
  constructor
  · intro hne upsert
    simp [storeInPinecone, hne]
  · intro heq
    have hlen : (buildRecords nonce now chunks vectors).length = chunks.length := by
      rw [buildRecords, buildFrom_length, heq]
      exact Nat.min_self _
    refine ⟨hlen, ?_⟩
    intro upsert hok
    rw [storeInPinecone]
    rw [if_neg (by omega)]
    rw [upsertBatches_ok upsert hok]
    rw [hlen]

/-- C6 witness: the theorem applied to a mismatched pair of lists and to
a matched pair of two chunks with an always-succeeding upsert. -/
theorem storeInPinecone_spec_witness :
    storeInPinecone (fun _ => Except.error "never reached") (fun i => toString i) "t0"
      ["a"] [] = Except.error "Mismatch between chunks and vectors length" ∧
    (buildRecords (fun i => toString i) "t0" ["a", "b"] [[1], [2]]).length = 2 ∧
    storeInPinecone (fun _ => Except.ok ()) (fun i => toString i) "t0"
      ["a", "b"] [[1], [2]] = Except.ok 2 :=
  ⟨(storeInPinecone_spec (fun i => toString i) "t0" ["a"] []).1 (by decide)
      (fun _ => Except.error "never reached"),
   ((storeInPinecone_spec (fun i => toString i) "t0" ["a", "b"] [[1], [2]]).2 (by decide)).1,
   ((storeInPinecone_spec (fun i => toString i) "t0" ["a", "b"] [[1], [2]]).2 (by decide)).2
     (fun _ => Except.ok ()) (fun _ => rfl)⟩

/-- C7: for a search-typed tool output with success true and a positive
result count, generateResponse returns the count plus a preview of the
top result content truncated to at most 150 characters; a missing results
array, a missing first element, or a missing or empty content field
degrades to the count-only message; success true with result count zero
gives the fixed no-results message. The composer itself is a total Lean
function, so it never throws for any tool output. -/
theorem generateResponse_search_safe (intent : String) (s : LooseSearch) :
    (∀ r rest c, s.success = true → 0 < s.resultCount →
      s.results = some (r :: rest) → r.content = some c → c ≠ "" →
      generateResponse intent (LooseToolOutput.search s) =
        "Found " ++ toString s.resultCount ++
          " relevant results. Here\x27s a snippet from the top result: \"" ++
          (jsSubstring0 150 c ++ "...") ++ "\"" ∧
      (jsSubstring0 150 c).length ≤ 150) ∧
    (s.success = true → 0 < s.resultCount →
      (s.results = none ∨ s.results = some [] ∨
        ∃ r rest, s.results = some (r :: rest) ∧
          (r.content = none ∨ r.content = some "")) →
      generateResponse intent (LooseToolOutput.search s) =
        "Found " ++ toString s.resultCount ++ " relevant results in the knowledge base.") ∧
    (s.success = true → s.resultCount = 0 →
      generateResponse intent (LooseToolOutput.search s) =
        "No relevant documents found for your search query in the knowledge base.") := by
  refine ⟨?_, ?_, ?_⟩
  · intro r rest c hsucc hpos hres hcon hne
    constructor
    · simp [generateResponse, hsucc, hpos, hres, hcon, hne]
    · have : (jsSubstring0 150 c).length = (c.data.take 150).length := rfl
      rw [this, List.length_take]
      exact Nat.min_le_left _ _
  · intro hsucc hpos hres
    rcases hres with h | h | ⟨r, rest, h, hc⟩
    · simp [generateResponse, hsucc, hpos, h]
    · simp [generateResponse, hsucc, hpos, h]
    · rcases hc with hc | hc <;> simp [generateResponse, hsucc, hpos, h, hc]
  · intro hsucc hzero
    have : ¬ (s.success = true ∧ 0 < s.resultCount) := by
      intro hand
      omega
    simp [generateResponse, this, hsucc, hzero]

/-- C7 witness: the theorem applied to a populated search output, to one
whose first result lacks a content field, and to an empty one. -/
theorem generateResponse_search_safe_witness :
    generateResponse "search_knowledge_base"
      (LooseToolOutput.search
        { success := true, resultCount := 2,
          results := some [{ content := some "top chunk" }, { content := some "next" }],
          message := "Search completed successfully." }) =
      "Found " ++ toString (2 : Int) ++
        " relevant results. Here\x27s a snippet from the top result: \"" ++
        (jsSubstring0 150 "top chunk" ++ "...") ++ "\"" ∧
    generateResponse "search_knowledge_base"
      (LooseToolOutput.search
        { success := true, resultCount := 2, results := some [{ content := none }],
          message := "Search completed successfully." }) =
      "Found " ++ toString (2 : Int) ++ " relevant results in the knowledge base." ∧
    generateResponse "search_knowledge_base"
      (LooseToolOutput.search
        { success := true, resultCount := 0, results := some [],
          message := "No relevant results found." }) =
      "No relevant documents found for your search query in the knowledge base." :=
  ⟨((generateResponse_search_safe "search_knowledge_base"
      { success := true, resultCount := 2,
        results := some [{ content := some "top chunk" }, { content := some "next" }],
        message := "Search completed successfully." }).1
      { content := some "top chunk" } [{ content := some "next" }] "top chunk"
      rfl (by decide) rfl rfl (by decide)).1,
   (generateResponse_search_safe "search_knowledge_base"
      { success := true, resultCount := 2, results := some [{ content := none }],
        message := "Search completed successfully." }).2.1
      rfl (by decide) (Or.inr (Or.inr ⟨{ content := none }, [], rfl, Or.inl rfl⟩)),
   (generateResponse_search_safe "search_knowledge_base"
      { success := true, resultCount := 0, results := some [],
        message := "No relevant results found." }).2.2 rfl rfl⟩

/-- C8 counterexample: the claim states that queryDocument fails on every
whitespace-only query before reaching the embedding call, but its
validation only rejects falsy or non-string questions, so the
whitespace-only question " " is passed straight to the embedding and
retrieval step: with a succeeding collaborator queryDocument succeeds,
and with a throwing collaborator it surfaces that collaborator error. -/
theorem queryDocument_whitespace_counterexample :
    queryDocument (fun _ => Except.ok [{ metadataText := some "chunk" }])
      (QueryInput.str " ") = Except.ok ["chunk"] ∧
    queryDocument (fun _ => Except.error "embedding service reached")
      (QueryInput.str " ") = Except.error "embedding service reached" := by
  refine ⟨rfl, rfl⟩

/-- C8 (amended): empty and non-string queries are rejected by
queryDocument with its validation error for every collaborator (so the
embedding call is never reached), and searchKnowledgeBase rejects every
empty, non-string or whitespace-only query with its validation-failure
response for every collaborator; whitespace-only queries, however, pass
the validation inside queryDocument and reach the embedding call. -/
theorem query_validation (search : String → Except String (List PineconeMatch))
    (qd : String → Except String (List String)) :
    queryDocument search QueryInput.nonString = Except.error "Invalid question provided" ∧
    queryDocument search (QueryInput.str "") = Except.error "Invalid question provided" ∧
    ∀ q : QueryInput, (q = QueryInput.nonString ∨ ∃ s, q = QueryInput.str s ∧ jsTrim s = "") →
      searchKnowledgeBase qd q = searchFailure q "Query cannot be empty or invalid." := by
  refine ⟨rfl, rfl, ?_⟩
  intro q hq
  rcases hq with h | ⟨s, hs, ht⟩
  · rw [h]
    rfl
  · rw [hs]
    simp [searchKnowledgeBase, ht]

/-- C8 witness: the amended theorem applied to the non-string, empty and
whitespace-only queries at concrete collaborators. -/
theorem query_validation_witness :
    queryDocument (fun _ => Except.ok []) QueryInput.nonString =
      Except.error "Invalid question provided" ∧
    queryDocument (fun _ => Except.ok []) (QueryInput.str "") =
      Except.error "Invalid question provided" ∧
    searchKnowledgeBase (fun _ => Except.ok ["chunk"]) (QueryInput.str "   ") =
      searchFailure (QueryInput.str "   ") "Query cannot be empty or invalid." :=
  ⟨(query_validation (fun _ => Except.ok []) (fun _ => Except.ok ["chunk"])).1,
   (query_validation (fun _ => Except.ok []) (fun _ => Except.ok ["chunk"])).2.1,
   (query_validation (fun _ => Except.ok []) (fun _ => Except.ok ["chunk"])).2.2
     (QueryInput.str "   ") (Or.inr ⟨"   ", rfl, by decide⟩)⟩

/-- C9: searchKnowledgeBase is a total function (it never throws for any
query and any behavior of the underlying retrieval); every response has
resultCount equal to the length of its results; every response with
success false has empty results and resultCount 0; and an invalid query
or a throwing retrieval always yields success false with the
corresponding failure message. -/
theorem searchKnowledgeBase_total_shape (qd : String → Except String (List String))
    (q : QueryInput) :
    (searchKnowledgeBase qd q).resultCount = (searchKnowledgeBase qd q).results.length ∧
    ((searchKnowledgeBase qd q).success = false →
      (searchKnowledgeBase qd q).results = [] ∧
      (searchKnowledgeBase qd q).resultCount = 0) ∧
    (∀ s m, q = QueryInput.str s → jsTrim s ≠ "" → qd s = Except.error m →
      (searchKnowledgeBase qd q).success = false ∧
      (searchKnowledgeBase qd q).message =
        "Failed to perform knowledge base search: " ++ m) := by
  cases q with
  | nonString =>
    refine ⟨rfl, fun _ => ⟨rfl, rfl⟩, ?_⟩
    intro s m hqs hts hqd
    cases hqs
  | str s =>
    by_cases ht : jsTrim s = ""
    · have hval : searchKnowledgeBase qd (QueryInput.str s) =
          searchFailure (QueryInput.str s) "Query cannot be empty or invalid." := by
        simp only [searchKnowledgeBase]
        rw [if_pos ht]
      refine ⟨by rw [hval]; rfl, fun _ => by rw [hval]; exact ⟨rfl, rfl⟩, ?_⟩
      intro s2 m hqs hts hqd
      cases hqs
      exact absurd ht hts
    · cases hq : qd s with
      | error e =>
        have hval : searchKnowledgeBase qd (QueryInput.str s) =
            searchFailure (QueryInput.str s) e := by
          simp only [searchKnowledgeBase]
          rw [if_neg ht, hq]
        refine ⟨by rw [hval]; rfl, fun _ => by rw [hval]; exact ⟨rfl, rfl⟩, ?_⟩
        intro s2 m hqs hts hqd
        cases hqs
        rw [hq] at hqd
        injection hqd with hem
        subst hem
        rw [hval]
        exact ⟨rfl, rfl⟩
      | ok raw =>
        have hval : searchKnowledgeBase qd (QueryInput.str s) =
            { success := true, query := QueryInput.str s, results := formatResults raw,
              resultCount := (formatResults raw).length,
              message :=
                if 0 < (formatResults raw).length then "Search completed successfully."
                else "No relevant results found.",
              errorDetails := none } := by
          simp only [searchKnowledgeBase]
          rw [if_neg ht, hq]
        refine ⟨by rw [hval], ?_, ?_⟩
        · intro hfail
          rw [hval] at hfail
          simp at hfail
        · intro s2 m hqs hts hqd
          cases hqs
          rw [hq] at hqd
          exact Except.noConfusion hqd

/-- C9 witness: the theorem applied to a throwing retrieval. -/
theorem searchKnowledgeBase_total_shape_witness :
    (searchKnowledgeBase (fun _ => Except.error "pinecone down") (QueryInput.str "x")).resultCount =
      (searchKnowledgeBase (fun _ => Except.error "pinecone down") (QueryInput.str "x")).results.length ∧
    (searchKnowledgeBase (fun _ => Except.error "pinecone down") (QueryInput.str "x")).results = [] ∧
    (searchKnowledgeBase (fun _ => Except.error "pinecone down") (QueryInput.str "x")).resultCount = 0 ∧
    (searchKnowledgeBase (fun _ => Except.error "pinecone down") (QueryInput.str "x")).success = false ∧
    (searchKnowledgeBase (fun _ => Except.error "pinecone down") (QueryInput.str "x")).message =
      "Failed to perform knowledge base search: " ++ "pinecone down" := by
  have hmain := searchKnowledgeBase_total_shape (fun _ => Except.error "pinecone down")
    (QueryInput.str "x")
  have hfail := hmain.2.2 "x" "pinecone down" rfl (by decide) rfl
  have hempty := hmain.2.1 hfail.1
  exact ⟨hmain.1, hempty.1, hempty.2, hfail.1, hfail.2⟩
